import Mathlib

/-!
# Smart Records System — verification of the core against its specification

Shallow embedding of the Python sources (`src/auth/auth_manager.py`,
`src/database/models.py`, `src/database/db_manager.py`,
`src/utils/validators.py`).

The database is modelled as an explicit state (`DBState`).  Each model
method is translated as the relational effect of the exact SQL statement
it executes, under the schema created by
`DatabaseManager.initialize_database` (UNIQUE constraints on
`users.username`, `departments.name`, `employees.email`; the foreign key
`employees.department_id REFERENCES departments(id) ON DELETE SET NULL`).
A statement that the database would reject (constraint violation) is an
`Except.error`, which is the Python exception; `DatabaseManager` itself
re-raises driver errors, so an `Except.error` of a low-level statement is
an exception propagating out of `execute_update`.

The state carries `lastInsertId`, the auto-generated id of the last
INSERT on the connection (MySQL tracks this per connection).  The code,
however, never reads it: `get_last_insert_id` opens a brand-new cursor
and returns `cursor.lastrowid`, and in `mysql.connector` `lastrowid` is
a per-cursor attribute, `None` until that very cursor has executed a
statement — the INSERT ran on a different cursor inside
`execute_update`, already closed.  So `get_last_insert_id` is modelled
as returning `none` on every state.

SHA-256 (`hashlib.sha256(...).hexdigest()`) is modelled as an injective
digest function: every property proved below depends only on the digest
being deterministic and collision-free, which the specification itself
assumes of the real hash (§8, property 1).
-/

namespace SmartRecords

/-- A row of the `users` table (`id`, `username` UNIQUE NOT NULL,
`password` NOT NULL, `created_at`). -/
structure UserRow where
  id : Nat
  username : String
  password : String
  created_at : Nat
deriving DecidableEq

/-- A row of the `departments` table (`id`, `name` UNIQUE NOT NULL,
`description`, `created_at`). -/
structure DeptRow where
  id : Nat
  name : String
  description : String
  created_at : Nat
deriving DecidableEq

/-- A row of the `employees` table.  `salary DECIMAL(10,2)` is modelled
as `Rat`; `department_id` is nullable; `created_at` defaults to the
current timestamp. -/
structure EmpRow where
  id : Nat
  first_name : String
  last_name : String
  email : String
  phone : String
  position : String
  salary : Rat
  department_id : Option Nat
  hire_date : String
  created_at : Nat
deriving DecidableEq

/-- The state of the MySQL database behind one `DatabaseManager`
connection: the three tables, their AUTO_INCREMENT counters, the
connection-scoped last-insert id, and the clock used for
`CURRENT_TIMESTAMP` defaults. -/
structure DBState where
  users : List UserRow
  departments : List DeptRow
  employees : List EmpRow
  nextUserId : Nat
  nextDeptId : Nat
  nextEmpId : Nat
  lastInsertId : Option Nat
  now : Nat
deriving DecidableEq

/-- Python's `str.strip()`: removes leading and trailing whitespace.
Defined by structural recursion over the character list so that concrete
instances evaluate inside the kernel. -/
def pyStrip (s : String) : String :=
  ⟨((s.data.dropWhile Char.isWhitespace).reverse.dropWhile
      Char.isWhitespace).reverse⟩

/-- `AuthManager.hash_password`: SHA-256 hex digest, modelled as an
injective deterministic digest (see the file header). -/
def hash_password (password : String) : String :=
  "sha256:" ++ password

/-- `INSERT INTO users (username, password) VALUES (%s, %s)` under the
UNIQUE constraint on `username`: errors (raises `IntegrityError`) iff the
username is already present, otherwise appends the row with the next
auto-increment id and `created_at = now`. -/
def usersInsert (db : DBState) (uname pw : String) : Except String DBState :=
  if db.users.any (fun r => r.username == uname) then
    .error ("Duplicate entry " ++ uname ++ " for key users.username")
  else
    .ok { db with
      users := db.users ++ [⟨db.nextUserId, uname, pw, db.now⟩],
      nextUserId := db.nextUserId + 1,
      lastInsertId := some db.nextUserId }

/-- The in-memory state of one `AuthManager`: its `DatabaseManager`'s
database, and the `current_user` session field
(`{id, username}` or `None`). -/
structure AuthState where
  db : DBState
  current_user : Option (Nat × String)
deriving DecidableEq

/-- `AuthManager.register_user(username, password)`.  Guards: empty or
whitespace-only username; password shorter than 8; then the explicit
existence pre-check `SELECT id FROM users WHERE username = %s` on the
trimmed username; then the INSERT inside `try/except`, whose exception is
caught and returned as a failure result. -/
def register_user (s : AuthState) (username password : String) :
    (Bool × String) × AuthState :=
  if username = "" ∨ pyStrip username = "" then
    ((false, "Username is required"), s)
  else if password = "" ∨ password.length < 8 then
    ((false, "Password must be at least 8 characters long"), s)
  else if (s.db.users.filter (fun r => r.username == pyStrip username)) ≠ [] then
    ((false, "Username already exists"), s)
  else
    match usersInsert s.db (pyStrip username) (hash_password password) with
    | .ok db' => ((true, "User registered successfully"), { s with db := db' })
    | .error e => ((false, "Registration failed: " ++ e), s)

/-- `AuthManager.login(username, password)`.  Guards: either field empty;
`SELECT * FROM users WHERE username = %s` on the trimmed username; empty
result or hash mismatch both answer "Invalid username or password";
success stores `{id, username}` in `current_user`. -/
def login (s : AuthState) (username password : String) :
    (Bool × String) × AuthState :=
  if username = "" ∨ password = "" then
    ((false, "Username and password are required"), s)
  else
    match s.db.users.filter (fun r => r.username == pyStrip username) with
    | [] => ((false, "Invalid username or password"), s)
    | user :: _ =>
      if user.password ≠ hash_password password then
        ((false, "Invalid username or password"), s)
      else
        ((true, "Login successful"),
          { s with current_user := some (user.id, user.username) })

/-- `INSERT INTO departments (name, description) VALUES (%s, %s)` under
the UNIQUE constraint on `name`. -/
def departmentsInsert (db : DBState) (name description : String) :
    Except String DBState :=
  if db.departments.any (fun r => r.name == name) then
    .error ("Duplicate entry " ++ name ++ " for key departments.name")
  else
    .ok { db with
      departments := db.departments ++ [⟨db.nextDeptId, name, description, db.now⟩],
      nextDeptId := db.nextDeptId + 1,
      lastInsertId := some db.nextDeptId }

/-- `INSERT INTO employees (...) VALUES (...)` under the UNIQUE
constraint on `email` and the InnoDB foreign key on `department_id`. -/
def employeesInsert (db : DBState) (first_name last_name email phone : String)
    (pos : String) (salary : Rat) (department_id : Option Nat)
    (hire_date : String) : Except String DBState :=
  if db.employees.any (fun r => r.email == email) then
    .error ("Duplicate entry " ++ email ++ " for key employees.email")
  else if department_id.any (fun d => db.departments.all (fun r => !(r.id == d))) then
    .error "Cannot add or update a child row: a foreign key constraint fails"
  else
    .ok { db with
      employees := db.employees ++
        [⟨db.nextEmpId, first_name, last_name, email, phone, pos, salary,
          department_id, hire_date, db.now⟩],
      nextEmpId := db.nextEmpId + 1,
      lastInsertId := some db.nextEmpId }

/-- `DatabaseManager.get_last_insert_id`: creates a brand-new cursor and
returns `cursor.lastrowid`.  In `mysql.connector`, `lastrowid` is
per-cursor and is `None` before that cursor executes anything (the
INSERT ran on a different, already-closed cursor inside
`execute_update`), so the call returns `None` whatever the connection
has inserted — contradicting its own docstring ("the ID of the last
inserted row"). -/
def get_last_insert_id (db : DBState) : Option Nat :=
  none

namespace DepartmentModel

/-- `DepartmentModel.create(name, description)`: the INSERT followed by
`get_last_insert_id`; a constraint violation propagates as the error. -/
def create (db : DBState) (name description : String) :
    Except String (Option Nat × DBState) :=
  (departmentsInsert db name description).map fun db' =>
    (get_last_insert_id db', db')

/-- Row order of `SELECT * FROM departments ORDER BY name`. -/
def deptLE (a b : DeptRow) : Prop := a.name ≤ b.name

instance : DecidableRel deptLE := fun a b =>
  inferInstanceAs (Decidable (a.name ≤ b.name))

/-- `DepartmentModel.get_all`: `SELECT * FROM departments ORDER BY name`. -/
def get_all (db : DBState) : List DeptRow :=
  List.insertionSort deptLE db.departments

/-- `DepartmentModel.delete(dept_id)`: `DELETE FROM departments WHERE id
= %s`.  The InnoDB foreign key `ON DELETE SET NULL` nulls the
`department_id` of every employee that referenced the deleted row;
returns `rows_affected > 0`. -/
def delete (db : DBState) (dept_id : Nat) : Bool × DBState :=
  let affected := (db.departments.filter (fun d => d.id == dept_id)).length
  (decide (0 < affected),
    { db with
      departments := db.departments.filter (fun d => !(d.id == dept_id)),
      employees := db.employees.map (fun e =>
        if e.department_id == some dept_id then
          { e with department_id := none }
        else e) })

end DepartmentModel

/-- An employee row as returned by the `SELECT e.*, d.name as
department_name ... LEFT JOIN departments d ON e.department_id = d.id`
queries: the employee columns plus the nullable joined name. -/
structure EmpJoinedRow where
  row : EmpRow
  department_name : Option String
deriving DecidableEq

/-- The joined `department_name` column: NULL when `department_id` is
NULL or (impossible under foreign-key integrity) dangling. -/
def deptNameOf (db : DBState) (department_id : Option Nat) : Option String :=
  department_id.bind fun d =>
    (db.departments.find? (fun r => r.id == d)).map (·.name)

/-- One row of the employee/department left-outer join. -/
def joinRow (db : DBState) (e : EmpRow) : EmpJoinedRow :=
  ⟨e, deptNameOf db e.department_id⟩

namespace EmployeeModel

/-- `EmployeeModel.create(...)`: the 8-field INSERT followed by
`get_last_insert_id`; there is no `try/except` in the Python method, so a
constraint violation propagates as the error. -/
def create (db : DBState) (first_name last_name email phone : String)
    (pos : String) (salary : Rat) (department_id : Option Nat)
    (hire_date : String) : Except String (Option Nat × DBState) :=
  (employeesInsert db first_name last_name email phone pos salary
      department_id hire_date).map fun db' =>
    (get_last_insert_id db', db')

/-- `EmployeeModel.get_by_id(emp_id)`: the join filtered by `e.id`,
returning `results[0] if results else None`. -/
def get_by_id (db : DBState) (emp_id : Nat) : Option EmpJoinedRow :=
  ((db.employees.filter (fun e => e.id == emp_id)).map (joinRow db)).head?

/-- Row order of `ORDER BY e.last_name, e.first_name`. -/
def empLE (a b : EmpJoinedRow) : Prop :=
  a.row.last_name < b.row.last_name ∨
    (a.row.last_name = b.row.last_name ∧ a.row.first_name ≤ b.row.first_name)

instance : DecidableRel empLE := fun a b =>
  inferInstanceAs (Decidable (_ ∨ _ ∧ _))

/-- `EmployeeModel.get_all`: the left-outer join of all employees with
their department names, `ORDER BY e.last_name, e.first_name`. -/
def get_all (db : DBState) : List EmpJoinedRow :=
  List.insertionSort empLE (db.employees.map (joinRow db))

/-- The single row produced by the aggregate statistics query
(`COUNT(*)`, `AVG/MIN/MAX/SUM(salary) FROM employees`).  An aggregate
query without `GROUP BY` always yields exactly one row; on an empty
table `COUNT(*)` is `0` and the four salary aggregates are NULL. -/
structure StatRow where
  total_employees : Nat
  avg_salary : Option Rat
  min_salary : Option Rat
  max_salary : Option Rat
  total_salary : Option Rat
deriving DecidableEq

/-- The row the aggregate query returns on the current table. -/
def statisticsRow (db : DBState) : StatRow :=
  match db.employees.map (·.salary) with
  | [] => ⟨0, none, none, none, none⟩
  | x :: xs =>
    ⟨(x :: xs).length,
      some ((x :: xs).sum / ((x :: xs).length : Rat)),
      some (xs.foldl min x),
      some (xs.foldl max x),
      some ((x :: xs).sum)⟩

/-- `EmployeeModel.get_statistics`: runs the aggregate query and returns
`results[0]` when the result list is non-empty, the all-zero dictionary
otherwise.  The aggregate query always returns one row, so the second
branch is dead code. -/
def get_statistics (db : DBState) : StatRow :=
  match [statisticsRow db] with
  | r :: _ => r
  | [] => ⟨0, some 0, some 0, some 0, some 0⟩

end EmployeeModel

/-! ## Concrete states used to instantiate the theorems -/

/-- Fresh manager state: empty tables, counters at 1, no session. -/
def authEmpty : AuthState := ⟨⟨[], [], [], 1, 1, 1, none, 0⟩, none⟩

/-- One stored user `bob` (password `password1`) with a live session. -/
def authW : AuthState :=
  ⟨⟨[⟨1, "bob", hash_password "password1", 0⟩], [], [], 2, 1, 1, none, 0⟩,
    some (1, "bob")⟩

/-- The state after registering `bob` on the empty store. -/
def authReg₁ : AuthState := (register_user authEmpty "bob" "password1").2

/-! ## Authentication theorems -/

theorem filter_username_eq_nil {l : List UserRow} {t : String}
    (h : ∀ r ∈ l, r.username ≠ t) :
    l.filter (fun r => r.username == t) = [] := by
  rw [List.filter_eq_nil_iff]
  intro r hr
  simpa using h r hr

theorem any_username_eq_false {l : List UserRow} {t : String}
    (h : ∀ r ∈ l, r.username ≠ t) :
    l.any (fun r => r.username == t) = false := by
  rw [List.any_eq_false]
  intro r hr
  simpa using h r hr

/-- C10: whenever `login` returns a failure result — empty field, unknown
username, or wrong password — the `current_user` session field is exactly
what it was before the call. -/
theorem login_failure_preserves_session (s : AuthState) (u p : String)
    (hfail : ((login s u p).1).1 = false) :
    (login s u p).2.current_user = s.current_user := by
  unfold login at hfail ⊢
  by_cases h1 : u = "" ∨ p = ""
  · rw [if_pos h1]
  · rw [if_neg h1] at hfail ⊢
    cases hfilter : s.db.users.filter (fun r => r.username == pyStrip u) with
    | nil => rfl
    | cons user rest =>
      rw [hfilter] at hfail
      by_cases h2 : user.password = hash_password p
      · simp [h2] at hfail
      · simp [h2]

/-- Concrete instance of `login_failure_preserves_session`: a failed
login with a wrong password leaves the established session in place. -/
theorem login_failure_preserves_session_witness :
    (login authW "bob" "wrongpass").2.current_user = authW.current_user :=
  login_failure_preserves_session authW "bob" "wrongpass" (by decide)

/-- C4: with both fields non-empty, an unknown trimmed username and a
stored-hash mismatch produce the same failure result, byte-identical
message `"Invalid username or password"` included, and leave the state
unchanged.  The hypothesis covers both cases at once: every stored row
matching the trimmed username (none, for an unknown user) carries a hash
different from the supplied password's. -/
theorem login_wrong_credentials_message (s : AuthState) (u p : String)
    (hu : u ≠ "") (hp : p ≠ "")
    (hbad : ∀ r ∈ s.db.users, r.username = pyStrip u →
      r.password ≠ hash_password p) :
    login s u p = ((false, "Invalid username or password"), s) := by
  unfold login
  have h1 : ¬(u = "" ∨ p = "") := by simp [hu, hp]
  rw [if_neg h1]
  cases hfilter : s.db.users.filter (fun r => r.username == pyStrip u) with
  | nil => rfl
  | cons user rest =>
    have hmem : user ∈ s.db.users.filter (fun r => r.username == pyStrip u) := by
      rw [hfilter]; exact List.mem_cons_self _ _
    rw [List.mem_filter] at hmem
    have huser : user.username = pyStrip u := by simpa using hmem.2
    exact if_pos (hbad user hmem.1 huser)

/-- Concrete instances of `login_wrong_credentials_message`: a wrong
password for the stored user `bob`, and a username that exists nowhere in
the store, produce the very same result. -/
theorem login_wrong_credentials_message_witness :
    login authW "bob" "wrongpass"
        = ((false, "Invalid username or password"), authW) ∧
    login authW "nobody" "anything"
        = ((false, "Invalid username or password"), authW) :=
  ⟨login_wrong_credentials_message authW "bob" "wrongpass"
      (by decide) (by decide) (by decide),
    login_wrong_credentials_message authW "nobody" "anything"
      (by decide) (by decide) (by decide)⟩

/-- C5: for a username non-blank after trimming and a password of length
at least 8, if the trimmed username is not already taken, `register_user`
succeeds and an immediate `login` with the same raw credentials succeeds
and stores the new user's id and (trimmed, as registration stores it)
username in `current_user`. -/
theorem register_then_login_succeeds (s : AuthState) (u p : String)
    (hu : pyStrip u ≠ "") (hp : 8 ≤ p.length)
    (hfree : ∀ r ∈ s.db.users, r.username ≠ pyStrip u) :
    ∃ s₁, register_user s u p = ((true, "User registered successfully"), s₁) ∧
      ∃ s₂, login s₁ u p = ((true, "Login successful"), s₂) ∧
        s₂.current_user = some (s.db.nextUserId, pyStrip u) := by
  have hu0 : u ≠ "" := by
    intro h
    exact hu (by rw [h]; rfl)
  have hp0 : p ≠ "" := by
    intro h
    rw [h] at hp
    simp at hp
  have hlt : ¬ p.length < 8 := by omega
  have hfilter := filter_username_eq_nil hfree
  have hany := any_username_eq_false hfree
  unfold register_user
  rw [if_neg (by simp [hu0, hu]), if_neg (by simp [hp0, hlt])]
  rw [if_neg (by simp [hfilter])]
  unfold usersInsert
  rw [hany]
  simp only [Bool.false_eq_true, if_false]
  refine ⟨_, rfl, ?_⟩
  unfold login
  rw [if_neg (by simp [hu0, hp0])]
  simp only [List.filter_append, hfilter, List.nil_append, List.filter,
    beq_self_eq_true]
  rw [if_neg (by simp)]
  exact ⟨_, rfl, rfl⟩

/-- Concrete instance of `register_then_login_succeeds` on an empty user
store. -/
theorem register_then_login_succeeds_witness :
    ∃ s₁, register_user authEmpty "alice" "password1"
        = ((true, "User registered successfully"), s₁) ∧
      ∃ s₂, login s₁ "alice" "password1" = ((true, "Login successful"), s₂) ∧
        s₂.current_user = some (authEmpty.db.nextUserId, pyStrip "alice") :=
  register_then_login_succeeds authEmpty "alice" "password1"
    (by decide) (by decide) (by decide)

/-- C6: if a registration succeeded, a second registration whose username
has the same trimmed form (whatever the surrounding whitespace) and whose
password passes the length guard fails with the conflict result from the
explicit pre-insert existence check — the message is
`"Username already exists"`, not a storage-level constraint message. -/
theorem register_twice_conflict (s s₁ : AuthState) (u₁ p₁ u₂ p₂ m : String)
    (h1 : register_user s u₁ p₁ = ((true, m), s₁))
    (hsame : pyStrip u₂ = pyStrip u₁) (hp2 : 8 ≤ p₂.length) :
    register_user s₁ u₂ p₂ = ((false, "Username already exists"), s₁) := by
  unfold register_user at h1
  by_cases g1 : u₁ = "" ∨ pyStrip u₁ = ""
  · rw [if_pos g1] at h1
    simp at h1
  rw [if_neg g1] at h1
  by_cases g2 : p₁ = "" ∨ p₁.length < 8
  · rw [if_pos g2] at h1
    simp at h1
  rw [if_neg g2] at h1
  by_cases g3 : s.db.users.filter (fun r => r.username == pyStrip u₁) ≠ []
  · rw [if_pos g3] at h1
    simp at h1
  rw [if_neg g3] at h1
  push_neg at g3
  have hall : ∀ r ∈ s.db.users, r.username ≠ pyStrip u₁ := by
    intro r hr
    have := List.filter_eq_nil_iff.mp g3 r hr
    simpa using this
  unfold usersInsert at h1
  rw [any_username_eq_false hall] at h1
  simp only [Bool.false_eq_true, if_false] at h1
  have hs₁ : s₁ = { s with db :=
      { s.db with
        users := s.db.users ++
          [⟨s.db.nextUserId, pyStrip u₁, hash_password p₁, s.db.now⟩],
        nextUserId := s.db.nextUserId + 1,
        lastInsertId := some s.db.nextUserId } } := by
    have := congrArg Prod.snd h1
    simpa using this.symm
  push_neg at g1
  have htrim : pyStrip u₁ ≠ "" := g1.2
  have hu₂ : u₂ ≠ "" := by
    intro h
    rw [h] at hsame
    exact htrim hsame.symm
  have hu₂t : pyStrip u₂ ≠ "" := by rw [hsame]; exact htrim
  have hp₂0 : p₂ ≠ "" := by
    intro h
    rw [h] at hp2
    simp at hp2
  have hlt : ¬ p₂.length < 8 := by omega
  have hneq : s₁.db.users.filter (fun r => r.username == pyStrip u₂) ≠ [] := by
    rw [hs₁]
    simp [List.filter_append, List.filter, hsame]
  unfold register_user
  rw [if_neg (by simp [hu₂, hu₂t]), if_neg (by simp [hp₂0, hlt]),
    if_pos hneq]

/-- Concrete instance of `register_twice_conflict`: registering `bob`
then `" bob "` (same trimmed username) hits the conflict result. -/
theorem register_twice_conflict_witness :
    register_user authReg₁ " bob " "password2"
      = ((false, "Username already exists"), authReg₁) :=
  register_twice_conflict authEmpty authReg₁ "bob" "password1" " bob "
    "password2" "User registered successfully" (by decide) (by decide)
    (by decide)

/-- Integrity invariants maintained by the schema and the insert path:
auto-increment ids of stored employees are below the counter, and
`employees.department_id` only references existing departments (the
InnoDB foreign key). -/
structure DBWF (db : DBState) : Prop where
  empIdLt : ∀ e ∈ db.employees, e.id < db.nextEmpId
  fkDept : ∀ e ∈ db.employees, ∀ d, e.department_id = some d →
    ∃ dep ∈ db.departments, dep.id = d

/-! ## Concrete database states -/

/-- Empty database, counters at 1. -/
def dbEmpty : DBState := ⟨[], [], [], 1, 1, 1, none, 0⟩

/-- One department `IT` (id 1). -/
def dbDept : DBState := ⟨[], [⟨1, "IT", "", 0⟩], [], 1, 2, 1, none, 5⟩

/-- One department `IT` (id 1), one employee referencing it and one
without a department. -/
def dbDel : DBState :=
  ⟨[], [⟨1, "IT", "", 0⟩],
    [⟨1, "Ada", "L", "a@x", "", "", 0, some 1, "", 0⟩,
     ⟨2, "Bob", "M", "b@x", "", "", 0, none, "", 0⟩],
    1, 2, 3, none, 0⟩

/-! ## Record-model theorems -/

/-- C1: the record is created — `get_by_id` retrieves it under the id
the database actually generated (`dbDept.nextEmpId`) — but `create`
returns `None` in place of that id, because `get_last_insert_id` reads
`lastrowid` from a freshly created cursor.  The caller therefore never
receives the generated id, and the round-trip
`getById(create(employee))` described by the claim and by the docstrings
of `create` ("The ID of the newly created employee") and
`get_last_insert_id` ("The ID of the last inserted row") is impossible:
`get_by_id(None)` (`WHERE e.id = NULL`) matches no row. -/
theorem create_roundtrip_code_bug :
    ∃ db', EmployeeModel.create dbDept "Ada" "Lovelace" "ada@x.com" ""
        "Engineer" 90000 (some 1) "2020-01-01" = .ok (none, db') ∧
      EmployeeModel.get_by_id db' dbDept.nextEmpId ≠ none := by
  refine ⟨_, rfl, ?_⟩
  decide

/-- C2: on an empty `employees` table the aggregate query still returns
one row, in which `COUNT(*)` is `0` but the four salary aggregates are
SQL NULL (Python `None`); `get_statistics` hands that row back as-is, so
the documented all-zero dictionary branch is dead code and the
zero-employee result is not all-zero. -/
theorem get_statistics_empty_row :
    EmployeeModel.get_statistics dbEmpty
      = ⟨0, none, none, none, none⟩ := rfl

/-- C7: deleting a department referenced by at least one employee
succeeds, keeps every employee row (same count, unreferenced rows
untouched, referencing rows identical except for the nulled
`department_id`), and afterwards no employee references the deleted
department. -/
theorem department_delete_decouples (db : DBState) (hwf : DBWF db) (D : Nat)
    (he : ∃ e ∈ db.employees, e.department_id = some D) :
    (DepartmentModel.delete db D).1 = true ∧
    (DepartmentModel.delete db D).2.employees.length = db.employees.length ∧
    (∀ e ∈ db.employees, e.department_id = some D →
      { e with department_id := none }
        ∈ (DepartmentModel.delete db D).2.employees) ∧
    (∀ e ∈ db.employees, e.department_id ≠ some D →
      e ∈ (DepartmentModel.delete db D).2.employees) ∧
    (∀ e' ∈ (DepartmentModel.delete db D).2.employees,
      e'.department_id ≠ some D) := by
  obtain ⟨e₀, he₀, hd₀⟩ := he
  obtain ⟨dep, hdep, hid⟩ := hwf.fkDept e₀ he₀ D hd₀
  unfold DepartmentModel.delete
  refine ⟨?_, by simp, ?_, ?_, ?_⟩
  · rw [decide_eq_true_eq]
    have hmem : dep ∈ db.departments.filter (fun d => d.id == D) := by
      rw [List.mem_filter]
      exact ⟨hdep, by simp [hid]⟩
    exact List.length_pos.mpr (fun hnil => by rw [hnil] at hmem; cases hmem)
  · intro e hee hdd
    refine List.mem_map.mpr ⟨e, hee, ?_⟩
    simp [hdd]
  · intro e hee hdd
    refine List.mem_map.mpr ⟨e, hee, ?_⟩
    have hbeq : (e.department_id == some D) = false := by simpa using hdd
    simp [hbeq]
  · intro e' he'
    obtain ⟨e, hee, rfl⟩ := List.mem_map.mp he'
    by_cases hdd : e.department_id = some D
    · simp [hdd]
    · have hbeq : (e.department_id == some D) = false := by simpa using hdd
      simp [hbeq]
      exact hdd

/-- Concrete instance of `department_delete_decouples` on `dbDel`. -/
theorem department_delete_decouples_witness :
    (DepartmentModel.delete dbDel 1).1 = true ∧
    (DepartmentModel.delete dbDel 1).2.employees.length
      = dbDel.employees.length ∧
    (⟨1, "Ada", "L", "a@x", "", "", 0, none, "", 0⟩ : EmpRow)
      ∈ (DepartmentModel.delete dbDel 1).2.employees := by
  have hwf : DBWF dbDel := by
    constructor
    · intro e he
      simp [dbDel] at he
      rcases he with rfl | rfl <;> simp [dbDel]
    · intro e he d hd
      simp [dbDel] at he
      rcases he with rfl | rfl
      · cases hd
        exact ⟨⟨1, "IT", "", 0⟩, by simp [dbDel], rfl⟩
      · cases hd
  have h := department_delete_decouples dbDel hwf 1
    ⟨⟨1, "Ada", "L", "a@x", "", "", 0, some 1, "", 0⟩, by simp [dbDel], rfl⟩
  exact ⟨h.1, h.2.1,
    h.2.2.1 ⟨1, "Ada", "L", "a@x", "", "", 0, some 1, "", 0⟩
      (by simp [dbDel]) rfl⟩

instance : IsTotal DeptRow DepartmentModel.deptLE :=
  ⟨fun a b => le_total a.name b.name⟩

instance : IsTrans DeptRow DepartmentModel.deptLE :=
  ⟨fun _ _ _ hab hbc => le_trans hab hbc⟩

instance : IsTotal EmpJoinedRow EmployeeModel.empLE := by
  constructor
  intro a b
  rcases lt_trichotomy a.row.last_name b.row.last_name with h | h | h
  · exact Or.inl (Or.inl h)
  · rcases le_total a.row.first_name b.row.first_name with h2 | h2
    · exact Or.inl (Or.inr ⟨h, h2⟩)
    · exact Or.inr (Or.inr ⟨h.symm, h2⟩)
  · exact Or.inr (Or.inl h)

instance : IsTrans EmpJoinedRow EmployeeModel.empLE := by
  constructor
  intro a b c hab hbc
  rcases hab with h1 | ⟨h1, h1'⟩ <;> rcases hbc with h2 | ⟨h2, h2'⟩
  · exact Or.inl (lt_trans h1 h2)
  · exact Or.inl (h1.trans_eq h2)
  · exact Or.inl (h1.trans_lt h2)
  · exact Or.inr ⟨h1.trans h2, h1'.trans h2'⟩

/-- C8: `DepartmentModel.get_all` returns all departments (a permutation
of the table) sorted by name, and `EmployeeModel.get_all` returns all
employees (a permutation of the table — the left-outer join keeps
department-less employees) sorted by last then first name, each row
carrying the joined department name, which is absent exactly when the
employee's department reference is absent. -/
theorem get_all_ordered_and_joined (db : DBState) :
    List.Sorted DepartmentModel.deptLE (DepartmentModel.get_all db) ∧
    (DepartmentModel.get_all db).Perm db.departments ∧
    List.Sorted EmployeeModel.empLE (EmployeeModel.get_all db) ∧
    ((EmployeeModel.get_all db).map EmpJoinedRow.row).Perm db.employees ∧
    (∀ r ∈ EmployeeModel.get_all db,
      r.department_name = deptNameOf db r.row.department_id) ∧
    (∀ r ∈ EmployeeModel.get_all db,
      r.row.department_id = none → r.department_name = none) := by
  refine ⟨List.sorted_insertionSort _ _, List.perm_insertionSort _ _,
    List.sorted_insertionSort _ _, ?_, ?_, ?_⟩
  · have h1 : (EmployeeModel.get_all db).Perm (db.employees.map (joinRow db)) :=
      List.perm_insertionSort _ _
    have h2 := h1.map EmpJoinedRow.row
    rw [List.map_map] at h2
    have hid : EmpJoinedRow.row ∘ joinRow db = id := rfl
    rw [hid, List.map_id] at h2
    exact h2
  · intro r hr
    have hm : r ∈ db.employees.map (joinRow db) :=
      (List.perm_insertionSort _ _).mem_iff.mp hr
    obtain ⟨e, _, rfl⟩ := List.mem_map.mp hm
    rfl
  · intro r hr hnone
    have hm : r ∈ db.employees.map (joinRow db) :=
      (List.perm_insertionSort _ _).mem_iff.mp hr
    obtain ⟨e, _, rfl⟩ := List.mem_map.mp hm
    have he : e.department_id = none := hnone
    simp [joinRow, deptNameOf, he]

/-- Concrete instance of `get_all_ordered_and_joined` on `dbDel`: the
employee row referencing department 1 carries the joined name `IT`. -/
theorem get_all_ordered_and_joined_witness :
    (⟨⟨1, "Ada", "L", "a@x", "", "", 0, some 1, "", 0⟩, some "IT"⟩ :
        EmpJoinedRow).department_name
      = deptNameOf dbDel (some 1) :=
  (get_all_ordered_and_joined dbDel).2.2.2.2.1
    ⟨⟨1, "Ada", "L", "a@x", "", "", 0, some 1, "", 0⟩, some "IT"⟩
    (by
      unfold EmployeeModel.get_all
      rw [List.mem_insertionSort]
      simp [dbDel, joinRow, deptNameOf, List.find?])

/-! ## Error propagation across the model boundary (C3) -/

/-- C3 counterexample: `EmployeeModel.create` called with an email that
is already stored (state `dbDel` holds an employee with email `a@x`)
does not return a success/failure result — the uniqueness violation
raised by the INSERT propagates out of the model method (there is no
`try/except` in `EmployeeModel.create`) to its presentation-layer
caller, which wraps the call in its own `try/except`
(`src/gui/employee_form.py`). -/
theorem employee_create_duplicate_email_raises :
    EmployeeModel.create dbDel "Eve" "S" "a@x" "" "" 0 none ""
      = .error "Duplicate entry a@x for key employees.email" := rfl

/-- C3 amended: `register_user` returns an explicit success/failure
result on every input (its INSERT sits in `try/except`, so the function
is total), but the Record Model CRUD mutations do not — a persistence
failure such as a uniqueness violation on employee email or department
name raises out of `create` to the presentation layer. -/
theorem register_catches_but_mutations_raise :
    (∀ (s : AuthState) (u p : String),
      ∃ res : (Bool × String) × AuthState, register_user s u p = res) ∧
    (∀ (db : DBState) (fn ln em ph pos : String) (sal : Rat)
        (did : Option Nat) (hd : String),
      (∃ e ∈ db.employees, e.email = em) →
      ∃ msg, EmployeeModel.create db fn ln em ph pos sal did hd
        = .error msg) ∧
    (∀ (db : DBState) (n d : String),
      (∃ dep ∈ db.departments, dep.name = n) →
      ∃ msg, DepartmentModel.create db n d = .error msg) := by
  refine ⟨fun s u p => ⟨_, rfl⟩, ?_, ?_⟩
  · rintro db fn ln em ph pos sal did hd ⟨e, he, hem⟩
    have hany : db.employees.any (fun r => r.email == em) = true :=
      List.any_eq_true.mpr ⟨e, he, by simp [hem]⟩
    unfold EmployeeModel.create employeesInsert
    rw [hany]
    exact ⟨_, rfl⟩
  · rintro db n d ⟨dep, hdep, hn⟩
    have hany : db.departments.any (fun r => r.name == n) = true :=
      List.any_eq_true.mpr ⟨dep, hdep, by simp [hn]⟩
    unfold DepartmentModel.create departmentsInsert
    rw [hany]
    exact ⟨_, rfl⟩

/-- Concrete instance of `register_catches_but_mutations_raise`:
duplicate employee email and duplicate department name both raise. -/
theorem register_catches_but_mutations_raise_witness :
    (∃ msg, EmployeeModel.create dbDel "Eve" "S" "a@x" "" "" 0 none ""
      = .error msg) ∧
    ∃ msg, DepartmentModel.create dbDel "IT" "" = .error msg :=
  ⟨register_catches_but_mutations_raise.2.1 dbDel "Eve" "S" "a@x" "" "" 0
      none "" ⟨⟨1, "Ada", "L", "a@x", "", "", 0, some 1, "", 0⟩,
        by simp [dbDel], rfl⟩,
    register_catches_but_mutations_raise.2.2 dbDel "IT" ""
      ⟨⟨1, "IT", "", 0⟩, by simp [dbDel], rfl⟩⟩

/-! ## `validate_date` (`src/utils/validators.py`) -/

/-- An ASCII digit `0`-`9` (the regex token `\d`). -/
def isAsciiDigit (c : Char) : Prop := 48 ≤ c.toNat ∧ c.toNat ≤ 57

instance (c : Char) : Decidable (isAsciiDigit c) :=
  inferInstanceAs (Decidable (48 ≤ c.toNat ∧ c.toNat ≤ 57))

/-- Numeric value of a digit character. -/
def digitVal (c : Char) : Nat := c.toNat - 48

/-- The pattern `^\d{4}-\d{2}-\d{2}$` of `validate_date`, combined with
reading the three numeric fields the way `strptime` does.  `none` exactly
when the regex does not match. -/
def parseYMD (s : String) : Option (Nat × Nat × Nat) :=
  match s.data with
  | [y1, y2, y3, y4, c1, m1, m2, c2, d1, d2] =>
    if isAsciiDigit y1 ∧ isAsciiDigit y2 ∧ isAsciiDigit y3 ∧
        isAsciiDigit y4 ∧ c1 = '-' ∧ isAsciiDigit m1 ∧ isAsciiDigit m2 ∧
        c2 = '-' ∧ isAsciiDigit d1 ∧ isAsciiDigit d2 then
      some (digitVal y1 * 1000 + digitVal y2 * 100 + digitVal y3 * 10
          + digitVal y4,
        digitVal m1 * 10 + digitVal m2,
        digitVal d1 * 10 + digitVal d2)
    else none
  | _ => none

/-- Whether a string matches the `YYYY-MM-DD` regex of the source. -/
def matchesDateFormat (s : String) : Bool := (parseYMD s).isSome

/-- Gregorian leap-year rule. -/
def isLeapYear (y : Nat) : Bool :=
  y % 4 == 0 && (y % 100 != 0 || y % 400 == 0)

/-- Length of a month under the Gregorian rules. -/
def daysInMonth (y m : Nat) : Nat :=
  if m = 2 then (if isLeapYear y then 29 else 28)
  else if m = 4 ∨ m = 6 ∨ m = 9 ∨ m = 11 then 30
  else 31

/-- Acceptance of `datetime.strptime(date_str, "%Y-%m-%d")` on a
format-matching string: Python's `datetime` admits years 1..9999 and
checks the day against the month length with the Gregorian leap rule. -/
def strptimeValid (y m d : Nat) : Prop :=
  1 ≤ y ∧ y ≤ 9999 ∧ 1 ≤ m ∧ m ≤ 12 ∧ 1 ≤ d ∧ d ≤ daysInMonth y m

instance (y m d : Nat) : Decidable (strptimeValid y m d) :=
  inferInstanceAs (Decidable
    (1 ≤ y ∧ y ≤ 9999 ∧ 1 ≤ m ∧ m ≤ 12 ∧ 1 ≤ d ∧ d ≤ daysInMonth y m))

/-- `validate_date(date_str)`: blank input is valid (the field is
optional); then the regex check; then the `strptime` parse. -/
def validate_date (date_str : String) : Bool × Option String :=
  if date_str = "" ∨ pyStrip date_str = "" then (true, none)
  else
    match parseYMD date_str with
    | none => (false, some "Date must be in YYYY-MM-DD format")
    | some (y, m, d) =>
      if strptimeValid y m d then (true, none)
      else (false, some "Invalid date")

/-- Modelled from the spec: a `YYYY-MM-DD` string "denotes a real
calendar date under standard (Gregorian, leap-year) rules" — month
1..12, day bounded by the month's length under the Gregorian leap rule,
and a positive year (the standard civil calendar has no year zero). -/
def isRealCalendarDate (y m d : Nat) : Prop :=
  1 ≤ y ∧ 1 ≤ m ∧ m ≤ 12 ∧ 1 ≤ d ∧ d ≤ daysInMonth y m

/-- A string in the format whose fields denote a real calendar date. -/
def denotesRealDate (s : String) : Prop :=
  ∃ y m d, parseYMD s = some (y, m, d) ∧ isRealCalendarDate y m d

theorem digitVal_le_nine {c : Char} (h : isAsciiDigit c) :
    digitVal c ≤ 9 := by
  unfold isAsciiDigit at h
  unfold digitVal
  omega

/-- A year read out of four digits is at most 9999 — so Python's upper
year bound never cuts into the format-matching strings. -/
theorem parseYMD_year_le {s : String} {y m d : Nat}
    (h : parseYMD s = some (y, m, d)) : y ≤ 9999 := by
  unfold parseYMD at h
  split at h
  · split at h
    · rename_i y1 y2 y3 y4 c1 m1 m2 c2 d1 d2 hcond
      obtain ⟨h1, h2, h3, h4, -⟩ := hcond
      injection h with h'
      simp only [Prod.mk.injEq] at h'
      obtain ⟨hy, -, -⟩ := h'
      have b1 := digitVal_le_nine h1
      have b2 := digitVal_le_nine h2
      have b3 := digitVal_le_nine h3
      have b4 := digitVal_le_nine h4
      omega
    · exact absurd h (by simp)
  · exact absurd h (by simp)

/-- C9 counterexample: the empty string is accepted by `validate_date`
(blank input is treated as valid because the field is optional) although
it is not in `YYYY-MM-DD` format — so `validate_date` does not accept
exactly the format-matching real-date strings. -/
theorem validate_date_blank_counterexample :
    (validate_date "").1 = true ∧ matchesDateFormat "" = false :=
  ⟨rfl, rfl⟩

set_option maxRecDepth 8192 in
/-- C9 amended: `validate_date` accepts the blank strings, and otherwise
accepts exactly the strings in `YYYY-MM-DD` format that denote real
calendar dates under the standard Gregorian leap-year rules; in
particular `2024-02-30` is rejected as not a real date while
`2024-02-29` is accepted (2024 is a leap year). -/
theorem validate_date_characterization :
    (∀ s : String, (validate_date s).1 = true ↔
      ((s = "" ∨ pyStrip s = "") ∨
        (matchesDateFormat s = true ∧ denotesRealDate s))) ∧
    validate_date "2024-02-30" = (false, some "Invalid date") ∧
    validate_date "2024-02-29" = (true, none) := by
  refine ⟨?_, by decide, by decide⟩
  intro s
  unfold validate_date
  by_cases hb : s = "" ∨ pyStrip s = ""
  · rw [if_pos hb]
    simp [hb]
  · rw [if_neg hb]
    cases hp : parseYMD s with
    | none =>
      have hfmt : matchesDateFormat s = false := by
        unfold matchesDateFormat
        rw [hp]
        rfl
      simp [hb, hfmt]
    | some ymd =>
      obtain ⟨y, m, d⟩ := ymd
      have hfmt : matchesDateFormat s = true := by
        unfold matchesDateFormat
        rw [hp]
        rfl
      by_cases hv : strptimeValid y m d
      · simp only [hv, if_true]
        constructor
        · intro _
          obtain ⟨v1, v2, v3, v4, v5, v6⟩ := hv
          exact Or.inr ⟨hfmt, y, m, d, hp, v1, v3, v4, v5, v6⟩
        · intro _
          trivial
      · simp only [hv, if_false]
        constructor
        · intro hcontra
          simp at hcontra
        · rintro (hb' | ⟨-, y', m', d', hp', hreal⟩)
          · exact absurd hb' hb
          · rw [hp] at hp'
            injection hp' with h'
            simp only [Prod.mk.injEq] at h'
            obtain ⟨rfl, rfl, rfl⟩ := h'
            have hy9 := parseYMD_year_le hp
            exact absurd ⟨hreal.1, hy9, hreal.2.1, hreal.2.2.1,
              hreal.2.2.2.1, hreal.2.2.2.2⟩ hv

/-- Concrete instance of the `validate_date` characterization at
`2024-02-29`. -/
theorem validate_date_characterization_witness :
    (validate_date "2024-02-29").1 = true ↔
      (("2024-02-29" = "" ∨ pyStrip "2024-02-29" = "") ∨
        (matchesDateFormat "2024-02-29" = true ∧
          denotesRealDate "2024-02-29")) :=
  validate_date_characterization.1 "2024-02-29"

end SmartRecords
